import Mathlib

/-!
Shallow embedding of the GoTime monitoring engine and rate-limiting client
(`src/maps/monitoring.py`, `src/maps/client.py`, `src/maps/directions.py`,
`src/maps/config.py`), with theorems checking the specification's claims.

Timestamps are modelled as natural numbers counting seconds (the code uses
`datetime.now()`; all comparisons in the code are on elapsed seconds).
Coordinates are opaque payload: the engine never computes on them, so they
are modelled as pairs of integers.
-/

namespace GoTime

/-- `SessionStatus` enum from `monitoring.py`. -/
inductive SessionStatus where
  | pending
  | active
  | target_reached
  | timed_out
  | cancelled
  | error
  deriving DecidableEq, Repr

/-- `MonitoringResult` dataclass from `monitoring.py`. -/
structure MonitoringResult where
  session_id : String
  status : SessionStatus
  final_travel_time : Option Nat
  target_duration : Nat
  message : String
  timestamp : Nat
  deriving DecidableEq, Repr

/-- Recognized configuration options of `config.py` (`Settings`); the API key
is irrelevant to the embedded logic and omitted. -/
structure Settings where
  api_requests_per_minute : Nat
  api_requests_per_day : Nat
  polling_interval_seconds : Nat
  default_timeout_minutes : Nat
  max_concurrent_sessions : Nat
  deriving DecidableEq, Repr

/-- `MonitoringSession` state from `monitoring.py`: identity, immutable route
parameters, and the mutable status / observation fields. -/
structure MonitoringSession where
  session_id : String
  origin : Int × Int
  destination : Int × Int
  target_duration : Nat
  status : SessionStatus
  created_at : Nat
  timeout_minutes : Nat
  polling_interval : Nat
  current_travel_time : Option Nat
  last_check : Option Nat
  error_message : Option String
  deriving DecidableEq, Repr

/-- Python's `x or d` on an `Optional[int]`: `None` and `0` are both falsy,
so either yields the default `d`. Used by `MonitoringSession.__init__`. -/
def py_or_nat (x : Option Nat) (d : Nat) : Nat :=
  match x with
  | none => d
  | some v => if v = 0 then d else v

/-- `MonitoringSession.__init__`: the uuid (`sid`) and `datetime.now()`
(`now`) are passed explicitly; the timeout and polling interval fall back to
the settings defaults through Python's falsy `or`. -/
def MonitoringSession.init (settings : Settings) (sid : String) (now : Nat)
    (origin destination : Int × Int) (target_duration_seconds : Nat)
    (timeout_minutes : Option Nat) (polling_interval_seconds : Option Nat) :
    MonitoringSession where
  session_id := sid
  origin := origin
  destination := destination
  target_duration := target_duration_seconds
  status := SessionStatus.pending
  created_at := now
  timeout_minutes := py_or_nat timeout_minutes settings.default_timeout_minutes
  polling_interval := py_or_nat polling_interval_seconds settings.polling_interval_seconds
  current_travel_time := none
  last_check := none
  error_message := none

/-- `MonitoringSession.is_expired`: false unless the session is `ACTIVE`;
otherwise compares elapsed seconds strictly against `timeout_minutes * 60`. -/
def MonitoringSession.is_expired (s : MonitoringSession) (now : Nat) : Bool :=
  if s.status = SessionStatus.active then
    decide (s.timeout_minutes * 60 < now - s.created_at)
  else
    false

/-- `MonitoringSession.stop`: set the final status and build the
`MonitoringResult` snapshot from the session's current fields. -/
def MonitoringSession.stop (s : MonitoringSession) (status : SessionStatus)
    (message : String) (now : Nat) : MonitoringSession × MonitoringResult :=
  ({ s with status := status },
   { session_id := s.session_id
     status := status
     final_travel_time := s.current_travel_time
     target_duration := s.target_duration
     message := message
     timestamp := now })

/-- `DirectionsService.format_duration` from `directions.py`. -/
def format_duration (seconds : Nat) : String :=
  if seconds < 60 then
    toString seconds ++ "s"
  else
    let minutes := seconds / 60
    if minutes < 60 then
      toString minutes ++ "m"
    else
      let hours := minutes / 60
      let remaining_minutes := minutes % 60
      if remaining_minutes = 0 then
        toString hours ++ "h"
      else
        toString hours ++ "h " ++ toString remaining_minutes ++ "m"

/-- Outcome of one call to the external Google Maps directions API for a
given origin/destination at a given moment: a travel time in seconds, an
empty result ("no route"), or a raised exception carrying a message. -/
inductive ApiResponse where
  | value (seconds : Nat)
  | noRoute
  | failure (msg : String)
  deriving DecidableEq, Repr

/-- `DirectionsService.get_current_travel_time` from `directions.py`: calls
`client.get_travel_time` and catches every exception, returning `None`, so a
failing call is indistinguishable from a "no route" response. -/
def get_current_travel_time (resp : ApiResponse) : Option Nat :=
  match resp with
  | ApiResponse.value v => some v
  | ApiResponse.noRoute => none
  | ApiResponse.failure _ => none

/-- The skip test at the top of `MonitoringEngine._check_session`: a session
with a `last_check` less than `polling_interval` seconds old is not due. -/
def due_skip (s : MonitoringSession) (now : Nat) : Bool :=
  match s.last_check with
  | none => false
  | some lc => decide (now - lc < s.polling_interval)

/-- Outcome of `MonitoringEngine._check_session` on one session: the updated
session, the result when the session completed, and whether the external
travel-time call was issued on this check. -/
structure CheckOutcome where
  session : MonitoringSession
  result : Option MonitoringResult
  polled : Bool
  deriving DecidableEq, Repr

/-- `MonitoringEngine._check_session`: skip when not due; terminate as
`TIMED_OUT` when expired (before polling); otherwise poll, treat `None` as a
transient non-result, record the observation, and terminate as
`TARGET_REACHED` when the observation is at or below the target. -/
def check_session (s : MonitoringSession) (now : Nat) (resp : ApiResponse) :
    CheckOutcome :=
  if due_skip s now then
    { session := s, result := none, polled := false }
  else if s.is_expired now then
    let (s', r) := s.stop SessionStatus.timed_out
      ("Session timed out after " ++ toString s.timeout_minutes ++ " minutes") now
    { session := s', result := some r, polled := false }
  else
    match get_current_travel_time resp with
    | none => { session := s, result := none, polled := true }
    | some travel_time =>
      let s' := { s with current_travel_time := some travel_time, last_check := some now }
      if travel_time ≤ s.target_duration then
        let (s'', r) := s'.stop SessionStatus.target_reached
          ("Target reached! Current travel time: " ++ format_duration travel_time ++
            " (target: " ++ format_duration s.target_duration ++ ")") now
        { session := s'', result := some r, polled := true }
      else
        { session := s', result := none, polled := true }

/-- Rate-limiting state of `GoogleMapsClient` in `client.py`: the limits from
settings, the deque of request timestamps in the trailing minute, the daily
counter, and the daily reset instant. -/
structure ClientState where
  requests_per_minute : Nat
  requests_per_day : Nat
  minute_requests : List Nat
  daily_requests : Nat
  daily_reset_time : Nat
  deriving DecidableEq, Repr

/-- The front trim of `_check_rate_limits` / `get_usage_stats`: pop entries
strictly older than the minute-ago cutoff from the front of the deque,
stopping at the first entry that is not older. -/
def trimMinute (l : List Nat) (minute_ago : Nat) : List Nat :=
  match l with
  | [] => []
  | t :: rest => if t < minute_ago then trimMinute rest minute_ago else t :: rest

/-- `GoogleMapsClient._check_rate_limits`: reset the daily counter when the
reset instant has passed, deny on the daily limit (before any trim), then
trim the minute window and deny on the minute limit. Returns the permit
decision together with the mutated state. -/
def check_rate_limits (c : ClientState) (now : Nat) : Bool × ClientState :=
  let c :=
    if c.daily_reset_time ≤ now then
      { c with daily_requests := 0, daily_reset_time := now + 86400 }
    else c
  if c.requests_per_day ≤ c.daily_requests then
    (false, c)
  else
    let c := { c with minute_requests := trimMinute c.minute_requests (now - 60) }
    if c.requests_per_minute ≤ c.minute_requests.length then
      (false, c)
    else
      (true, c)

/-- `GoogleMapsClient._record_request`: append the current timestamp to the
minute window and bump the daily counter. -/
def record_request (c : ClientState) (now : Nat) : ClientState :=
  { c with minute_requests := c.minute_requests ++ [now],
           daily_requests := c.daily_requests + 1 }

/-- One iteration of the `while` loop of
`GoogleMapsClient._wait_for_rate_limit`: when the check denies, the sleep
duration chosen by that iteration (`some d`), branching on whether the
minute deque is non-empty — not on which limit caused the denial; when the
check permits, `none` (the loop exits). The mutated state is returned too. -/
def wait_sleep (c : ClientState) (now : Nat) : Option Nat × ClientState :=
  match check_rate_limits c now with
  | (true, c') => (none, c')
  | (false, c') =>
    match c'.minute_requests with
    | [] => (some 60, c')
    | oldest :: _ =>
      let wait_until := oldest + 61
      if now < wait_until then (some (min (wait_until - now) 10), c')
      else (some 0, c')

/-- The acquire path of `get_travel_time` at the iteration where
`_wait_for_rate_limit` exits: the check permits and `_record_request` runs;
`none` when the check denies (the loop would keep waiting instead). -/
def acquire_step (c : ClientState) (now : Nat) : Option ClientState :=
  match check_rate_limits c now with
  | (true, c') => some (record_request c' now)
  | (false, _) => none

/-- The dictionary returned by `GoogleMapsClient.get_usage_stats`. Remaining
budgets are Python int subtractions, hence integers. -/
structure UsageStats where
  daily_requests : Nat
  daily_limit : Nat
  daily_remaining : Int
  minute_requests : Nat
  minute_limit : Nat
  minute_remaining : Int
  daily_reset_time : Nat
  deriving DecidableEq, Repr

/-- `GoogleMapsClient.get_usage_stats`: trims the minute deque in place
(older than 60 seconds), then reports counts and remaining budgets. Returns
the stats together with the state left behind by the trim. -/
def get_usage_stats (c : ClientState) (now : Nat) : UsageStats × ClientState :=
  let trimmed := trimMinute c.minute_requests (now - 60)
  let c' := { c with minute_requests := trimmed }
  ({ daily_requests := c'.daily_requests
     daily_limit := c'.requests_per_day
     daily_remaining := (c'.requests_per_day : Int) - (c'.daily_requests : Int)
     minute_requests := trimmed.length
     minute_limit := c'.requests_per_minute
     minute_remaining := (c'.requests_per_minute : Int) - (trimmed.length : Int)
     daily_reset_time := c'.daily_reset_time }, c')

/-- `MonitoringEngine` state: the ordered map of active sessions (Python
dict, insertion order), whether the sweep loop is running, and whether a
notification callback has been registered (`notification_callback` not
`None`). -/
structure MonitoringEngine where
  active_sessions : List (String × MonitoringSession)
  running : Bool
  has_callback : Bool
  deriving DecidableEq, Repr

/-- A freshly constructed `MonitoringEngine`: empty active set, loop not
running; `cb` records whether `set_notification_callback` was called. -/
def MonitoringEngine.mk0 (cb : Bool) : MonitoringEngine :=
  { active_sessions := [], running := false, has_callback := cb }

/-- Dictionary lookup `self.active_sessions[sid]` on the ordered map. -/
def lookupSid (l : List (String × MonitoringSession)) (sid : String) :
    Option MonitoringSession :=
  match l with
  | [] => none
  | p :: rest => if p.1 = sid then some p.2 else lookupSid rest sid

/-- Dictionary membership `sid in self.active_sessions`. -/
def hasKey (l : List (String × MonitoringSession)) (sid : String) : Bool :=
  (lookupSid l sid).isSome

/-- `MonitoringEngine.start_session`: reject a duplicate id, reject at
capacity, otherwise `session.start()` (status becomes `ACTIVE`), insert into
the dict, and ensure the sweep loop runs. -/
def MonitoringEngine.start_session (settings : Settings) (e : MonitoringEngine)
    (s : MonitoringSession) : Except String (MonitoringEngine × String) :=
  if hasKey e.active_sessions s.session_id then
    Except.error ("Session " ++ s.session_id ++ " already active")
  else if settings.max_concurrent_sessions ≤ e.active_sessions.length then
    Except.error "Maximum concurrent sessions reached"
  else
    let s' := { s with status := SessionStatus.active }
    Except.ok
      ({ e with active_sessions := e.active_sessions ++ [(s.session_id, s')],
                running := true },
       s.session_id)

/-- Observable events of the engine: a successful registration, a produced
terminal `MonitoringResult`, and an invocation of the notification callback
with a result. -/
inductive EngineEvent where
  | registered (sid : String)
  | completed (r : MonitoringResult)
  | notified (r : MonitoringResult)
  deriving DecidableEq, Repr

/-- The callback-invocation events the code performs for one produced
result: one `notified` event when a callback is registered, none otherwise. -/
def notifyEvents (cb : Bool) (r : MonitoringResult) : List EngineEvent :=
  if cb then [EngineEvent.notified r] else []

/-- `MonitoringEngine.stop_session`: pop the session (returning no events
when the id is unknown), stop it as `CANCELLED`, and invoke the callback
with the result. -/
def MonitoringEngine.stop_session (e : MonitoringEngine) (sid : String) (now : Nat) :
    MonitoringEngine × List EngineEvent :=
  match lookupSid e.active_sessions sid with
  | none => (e, [])
  | some s =>
    let (_, r) := s.stop SessionStatus.cancelled "Session cancelled by user" now
    ({ e with active_sessions := e.active_sessions.filter (fun p => p.1 ≠ sid) },
     EngineEvent.completed r :: notifyEvents e.has_callback r)

/-- The per-session body of `MonitoringEngine._check_all_sessions` folded
over the dict: a session whose check returns a result is notified and
dropped (the post-scan eviction), an incomplete session stays with its
updated state. The external responses are given per session id by `env`. -/
def sweep_sessions (l : List (String × MonitoringSession)) (now : Nat)
    (env : String → ApiResponse) (cb : Bool) :
    List (String × MonitoringSession) × List EngineEvent :=
  match l with
  | [] => ([], [])
  | (sid, s) :: rest =>
    let out := check_session s now (env sid)
    let prev := sweep_sessions rest now env cb
    match out.result with
    | some r => (prev.1, (EngineEvent.completed r :: notifyEvents cb r) ++ prev.2)
    | none => ((sid, out.session) :: prev.1, prev.2)

/-- One iteration of `MonitoringEngine._monitoring_loop`: a no-op unless the
loop is running; otherwise `_check_all_sessions` over every active session,
after which the loop exits (clearing `_running`) when the active set became
empty. -/
def MonitoringEngine.sweep (e : MonitoringEngine) (now : Nat)
    (env : String → ApiResponse) : MonitoringEngine × List EngineEvent :=
  if e.running then
    let out := sweep_sessions e.active_sessions now env e.has_callback
    ({ e with active_sessions := out.1, running := out.1 ≠ [] }, out.2)
  else
    (e, [])

/-- `MonitoringEngine.shutdown`: stop the loop, call `session.stop` with
`CANCELLED` and message "Engine shutdown" on every active session — the
returned results are discarded and the notification callback is never
invoked here — then clear the active set. -/
def MonitoringEngine.shutdown (e : MonitoringEngine) (now : Nat) :
    MonitoringEngine × List EngineEvent :=
  let evs := e.active_sessions.map
    (fun p => EngineEvent.completed (p.2.stop SessionStatus.cancelled "Engine shutdown" now).2)
  ({ e with active_sessions := [], running := false }, evs)

/-- The atomic operations a caller or the event loop can perform on the
engine. `asyncio` runs them without interleaving: none of the engine
coroutines awaits inside its mutation region. -/
inductive EngineOp where
  | start (s : MonitoringSession)
  | cancel (sid : String) (now : Nat)
  | sweep (now : Nat) (env : String → ApiResponse)
  | shutdown (now : Nat)

/-- One engine operation, returning the mutated engine and the events it
emitted; a failed `start_session` raises to the caller and leaves the engine
untouched. -/
def MonitoringEngine.step (settings : Settings) (e : MonitoringEngine) :
    EngineOp → MonitoringEngine × List EngineEvent
  | EngineOp.start s =>
    match e.start_session settings s with
    | Except.error _ => (e, [])
    | Except.ok (e', sid) => (e', [EngineEvent.registered sid])
  | EngineOp.cancel sid now => e.stop_session sid now
  | EngineOp.sweep now env => e.sweep now env
  | EngineOp.shutdown now => e.shutdown now

/-- A whole trace of engine operations, concatenating the emitted events. -/
def MonitoringEngine.run (settings : Settings) (e : MonitoringEngine) :
    List EngineOp → MonitoringEngine × List EngineEvent
  | [] => (e, [])
  | op :: ops =>
    let st := e.step settings op
    let rest := st.1.run settings ops
    (rest.1, st.2 ++ rest.2)

/-- Number of `completed` events (produced terminal Results) for a session
id in an event list. -/
def resultCount (evs : List EngineEvent) (sid : String) : Nat :=
  match evs with
  | [] => 0
  | EngineEvent.completed r :: rest =>
    (if r.session_id = sid then 1 else 0) + resultCount rest sid
  | _ :: rest => resultCount rest sid

/-- Number of `registered` events for a session id in an event list. -/
def regCount (evs : List EngineEvent) (sid : String) : Nat :=
  match evs with
  | [] => 0
  | EngineEvent.registered i :: rest =>
    (if i = sid then 1 else 0) + regCount rest sid
  | _ :: rest => regCount rest sid

/-- Number of `notified` events (callback invocations) in an event list. -/
def notifyCount (evs : List EngineEvent) : Nat :=
  match evs with
  | [] => 0
  | EngineEvent.notified _ :: rest => 1 + notifyCount rest
  | _ :: rest => notifyCount rest

/-- Well-formedness of the engine's dict: keys are distinct (a Python dict)
and each stored session carries its key as its `session_id` (the dict is
keyed by `session.session_id` at insertion). -/
def EngineWF (e : MonitoringEngine) : Prop :=
  (e.active_sessions.map Prod.fst).Nodup ∧
    ∀ p ∈ e.active_sessions, p.2.session_id = p.1

/-- `if`-free characterization used in the counting argument. -/
def keyBit (l : List (String × MonitoringSession)) (sid : String) : Nat :=
  if hasKey l sid then 1 else 0

theorem check_session_session_id (s : MonitoringSession) (now : Nat) (resp : ApiResponse) :
    (check_session s now resp).session.session_id = s.session_id := by
  unfold check_session
  cases h1 : due_skip s now
  · cases h2 : s.is_expired now
    · cases hr : get_current_travel_time resp with
      | none => simp [h1, h2, hr]
      | some v =>
        by_cases h3 : v ≤ s.target_duration <;>
          simp [h1, h2, hr, h3, MonitoringSession.stop]
    · simp [h1, h2, MonitoringSession.stop]
  · simp [h1]

theorem check_session_result_session_id (s : MonitoringSession) (now : Nat)
    (resp : ApiResponse) :
    ∀ r, (check_session s now resp).result = some r → r.session_id = s.session_id := by
  intro r h
  unfold check_session at h
  cases h1 : due_skip s now <;> rw [h1] at h
  · cases h2 : s.is_expired now <;> rw [h2] at h
    · cases hr : get_current_travel_time resp <;> rw [hr] at h
      · simp at h
      · rename_i v
        by_cases h3 : v ≤ s.target_duration
        · simp [h3, MonitoringSession.stop] at h
          subst h
          rfl
        · simp [h3] at h
    · simp [MonitoringSession.stop] at h
      subst h
      rfl
  · simp at h

theorem lookupSid_mem {l : List (String × MonitoringSession)} {sid : String}
    {s : MonitoringSession} (h : lookupSid l sid = some s) : (sid, s) ∈ l := by
  induction l with
  | nil => simp [lookupSid] at h
  | cons p rest ih =>
    unfold lookupSid at h
    by_cases hp : p.1 = sid
    · rw [if_pos hp] at h
      injection h with h2
      rw [← h2, ← hp, Prod.mk.eta]
      exact List.mem_cons_self _ _
    · rw [if_neg hp] at h
      exact List.mem_cons_of_mem _ (ih h)

theorem hasKey_iff {l : List (String × MonitoringSession)} {sid : String} :
    hasKey l sid = true ↔ sid ∈ l.map Prod.fst := by
  induction l with
  | nil => simp [hasKey, lookupSid]
  | cons p rest ih =>
    unfold hasKey lookupSid
    by_cases hp : p.1 = sid
    · simp [hp]
    · simpa [hp, Ne.symm hp] using ih

theorem hasKey_append (l₁ l₂ : List (String × MonitoringSession)) (sid : String) :
    hasKey (l₁ ++ l₂) sid = (hasKey l₁ sid || hasKey l₂ sid) := by
  induction l₁ with
  | nil => simp [hasKey, lookupSid]
  | cons p rest ih =>
    by_cases hp : p.1 = sid
    · simp [hasKey, lookupSid, hp]
    · simpa [hasKey, lookupSid, hp] using ih

theorem lookupSid_filter_ne {l : List (String × MonitoringSession)}
    {sid sid' : String} (h : sid ≠ sid') :
    lookupSid (l.filter fun p => p.1 ≠ sid') sid = lookupSid l sid := by
  induction l with
  | nil => rfl
  | cons p rest ih =>
    rw [List.filter_cons]
    by_cases hp : p.1 = sid'
    · have hns : ¬ p.1 = sid := fun hps => h (hps ▸ hp)
      rw [if_neg (by simp [hp]), ih]
      have e2 : lookupSid (p :: rest) sid
          = if p.1 = sid then some p.2 else lookupSid rest sid := rfl
      rw [e2, if_neg hns]
    · rw [if_pos (by simp [hp])]
      have e1 : lookupSid (p :: rest.filter fun q => q.1 ≠ sid') sid
          = if p.1 = sid then some p.2
            else lookupSid (rest.filter fun q => q.1 ≠ sid') sid := rfl
      have e2 : lookupSid (p :: rest) sid
          = if p.1 = sid then some p.2 else lookupSid rest sid := rfl
      rw [e1, e2, ih]

theorem hasKey_filter_self (l : List (String × MonitoringSession)) (sid : String) :
    hasKey (l.filter fun p => p.1 ≠ sid) sid = false := by
  induction l with
  | nil => rfl
  | cons p rest ih =>
    by_cases hp : p.1 = sid
    · simpa [List.filter_cons, hp] using ih
    · simpa [List.filter_cons, hp, hasKey, lookupSid] using ih

theorem resultCount_append (a b : List EngineEvent) (sid : String) :
    resultCount (a ++ b) sid = resultCount a sid + resultCount b sid := by
  induction a with
  | nil => simp [resultCount]
  | cons ev rest ih =>
    cases ev <;> simp [resultCount, ih, Nat.add_assoc]

theorem regCount_append (a b : List EngineEvent) (sid : String) :
    regCount (a ++ b) sid = regCount a sid + regCount b sid := by
  induction a with
  | nil => simp [regCount]
  | cons ev rest ih =>
    cases ev <;> simp [regCount, ih, Nat.add_assoc]

theorem resultCount_notifyEvents (cb : Bool) (r : MonitoringResult) (sid : String) :
    resultCount (notifyEvents cb r) sid = 0 := by
  cases cb <;> simp [notifyEvents, resultCount]

theorem regCount_notifyEvents (cb : Bool) (r : MonitoringResult) (sid : String) :
    regCount (notifyEvents cb r) sid = 0 := by
  cases cb <;> simp [notifyEvents, regCount]

theorem keyBit_nil (sid : String) : keyBit [] sid = 0 := rfl

theorem keyBit_cons (k : String) (s : MonitoringSession)
    (l : List (String × MonitoringSession)) (sid : String) :
    keyBit ((k, s) :: l) sid = if k = sid then 1 else keyBit l sid := by
  by_cases h : k = sid <;> simp [keyBit, hasKey, lookupSid, h]

theorem keyBit_eq_zero_of_not_mem {l : List (String × MonitoringSession)}
    {sid : String} (h : sid ∉ l.map Prod.fst) : keyBit l sid = 0 := by
  unfold keyBit
  rw [if_neg]
  intro hk
  exact h (hasKey_iff.mp hk)

theorem sweep_sessions_cons_some (sid : String) (s : MonitoringSession)
    (rest : List (String × MonitoringSession)) (now : Nat)
    (env : String → ApiResponse) (cb : Bool) (r : MonitoringResult)
    (h : (check_session s now (env sid)).result = some r) :
    sweep_sessions ((sid, s) :: rest) now env cb
      = ((sweep_sessions rest now env cb).1,
         (EngineEvent.completed r :: notifyEvents cb r) ++
           (sweep_sessions rest now env cb).2) := by
  simp only [sweep_sessions, h]

theorem sweep_sessions_cons_none (sid : String) (s : MonitoringSession)
    (rest : List (String × MonitoringSession)) (now : Nat)
    (env : String → ApiResponse) (cb : Bool)
    (h : (check_session s now (env sid)).result = none) :
    sweep_sessions ((sid, s) :: rest) now env cb
      = ((sid, (check_session s now (env sid)).session) :: (sweep_sessions rest now env cb).1,
         (sweep_sessions rest now env cb).2) := by
  simp only [sweep_sessions, h]

theorem sweep_keys_sublist (l : List (String × MonitoringSession)) (now : Nat)
    (env : String → ApiResponse) (cb : Bool) :
    ((sweep_sessions l now env cb).1.map Prod.fst).Sublist (l.map Prod.fst) := by
  induction l with
  | nil => simp [sweep_sessions]
  | cons q rest ih =>
    obtain ⟨sid, s⟩ := q
    cases hout : (check_session s now (env sid)).result with
    | some r =>
      rw [sweep_sessions_cons_some sid s rest now env cb r hout]
      exact ih.cons _
    | none =>
      rw [sweep_sessions_cons_none sid s rest now env cb hout]
      simpa using ih.cons₂ sid

theorem sweep_session_ids (l : List (String × MonitoringSession)) (now : Nat)
    (env : String → ApiResponse) (cb : Bool)
    (hinv : ∀ p ∈ l, p.2.session_id = p.1) :
    ∀ p ∈ (sweep_sessions l now env cb).1, p.2.session_id = p.1 := by
  induction l with
  | nil => simp [sweep_sessions]
  | cons q rest ih =>
    obtain ⟨sid, s⟩ := q
    have hinv' : ∀ p ∈ rest, p.2.session_id = p.1 :=
      fun p hp => hinv p (List.mem_cons_of_mem _ hp)
    cases hout : (check_session s now (env sid)).result with
    | some r =>
      rw [sweep_sessions_cons_some sid s rest now env cb r hout]
      exact ih hinv'
    | none =>
      rw [sweep_sessions_cons_none sid s rest now env cb hout]
      intro p hp
      rcases List.mem_cons.mp hp with hp | hp
      · subst hp
        show (check_session s now (env sid)).session.session_id = sid
        rw [check_session_session_id]
        exact hinv (sid, s) (List.mem_cons_self _ _)
      · exact ih hinv' p hp

theorem sweep_count (l : List (String × MonitoringSession)) (now : Nat)
    (env : String → ApiResponse) (cb : Bool) (sid : String)
    (hnd : (l.map Prod.fst).Nodup) (hinv : ∀ p ∈ l, p.2.session_id = p.1) :
    resultCount (sweep_sessions l now env cb).2 sid
        + keyBit (sweep_sessions l now env cb).1 sid
      = keyBit l sid := by
  induction l with
  | nil => simp [sweep_sessions, resultCount, keyBit_nil]
  | cons q rest ih =>
    obtain ⟨k, s⟩ := q
    have hk : k ∉ rest.map Prod.fst := (List.nodup_cons.mp hnd).1
    have hnd' : (rest.map Prod.fst).Nodup := (List.nodup_cons.mp hnd).2
    have hinv' : ∀ p ∈ rest, p.2.session_id = p.1 :=
      fun p hp => hinv p (List.mem_cons_of_mem _ hp)
    have hks : s.session_id = k := hinv (k, s) (List.mem_cons_self _ _)
    have ih' := ih hnd' hinv'
    cases hout : (check_session s now (env k)).result with
    | some r =>
      have hr : r.session_id = k := by
        rw [check_session_result_session_id s now (env k) r hout, hks]
      rw [sweep_sessions_cons_some k s rest now env cb r hout]
      dsimp only
      show resultCount (EngineEvent.completed r :: (notifyEvents cb r ++ _)) sid + _ = _
      rw [show ∀ t, resultCount (EngineEvent.completed r :: t) sid
            = (if r.session_id = sid then 1 else 0) + resultCount t sid from fun t => rfl]
      rw [resultCount_append, resultCount_notifyEvents, keyBit_cons]
      by_cases hksid : k = sid
      · subst hksid
        have hz : keyBit rest k = 0 := keyBit_eq_zero_of_not_mem hk
        have hz2 : keyBit (sweep_sessions rest now env cb).1 k = 0 :=
          keyBit_eq_zero_of_not_mem
            (fun hm => hk ((sweep_keys_sublist rest now env cb).mem hm))
        rw [hz, hz2] at ih'
        simp [hr, hz2]
        omega
      · have hrs : ¬ r.session_id = sid := fun he => hksid (hr ▸ he)
        rw [if_neg hrs, if_neg hksid]
        omega
    | none =>
      rw [sweep_sessions_cons_none k s rest now env cb hout]
      dsimp only
      rw [keyBit_cons, keyBit_cons]
      by_cases hksid : k = sid
      · subst hksid
        have hz : keyBit rest k = 0 := keyBit_eq_zero_of_not_mem hk
        have hz2 : keyBit (sweep_sessions rest now env cb).1 k = 0 :=
          keyBit_eq_zero_of_not_mem
            (fun hm => hk ((sweep_keys_sublist rest now env cb).mem hm))
        rw [hz, hz2] at ih'
        simp
        omega
      · rw [if_neg hksid, if_neg hksid]
        omega

theorem keyBit_le_one (l : List (String × MonitoringSession)) (sid : String) :
    keyBit l sid ≤ 1 := by
  unfold keyBit
  split <;> omega

theorem keyBit_of_hasKey_false {l : List (String × MonitoringSession)} {sid : String}
    (h : hasKey l sid = false) : keyBit l sid = 0 := by
  simp [keyBit, h]

theorem resultCount_cons_completed (r : MonitoringResult) (t : List EngineEvent)
    (sid : String) :
    resultCount (EngineEvent.completed r :: t) sid
      = (if r.session_id = sid then 1 else 0) + resultCount t sid := rfl

theorem resultCount_cons_registered (i : String) (t : List EngineEvent) (sid : String) :
    resultCount (EngineEvent.registered i :: t) sid = resultCount t sid := rfl

theorem regCount_cons_completed (r : MonitoringResult) (t : List EngineEvent)
    (sid : String) :
    regCount (EngineEvent.completed r :: t) sid = regCount t sid := rfl

theorem regCount_cons_registered (i : String) (t : List EngineEvent) (sid : String) :
    regCount (EngineEvent.registered i :: t) sid
      = (if i = sid then 1 else 0) + regCount t sid := rfl

theorem keyBit_append_single (l : List (String × MonitoringSession)) (k : String)
    (s : MonitoringSession) (sid : String) :
    keyBit (l ++ [(k, s)]) sid
      = if hasKey l sid then 1 else if k = sid then 1 else 0 := by
  unfold keyBit
  rw [hasKey_append]
  by_cases h1 : hasKey l sid <;> by_cases h2 : k = sid <;>
    simp [h1, h2, hasKey, lookupSid]

theorem sweep_regCount (l : List (String × MonitoringSession)) (now : Nat)
    (env : String → ApiResponse) (cb : Bool) (sid : String) :
    regCount (sweep_sessions l now env cb).2 sid = 0 := by
  induction l with
  | nil => rfl
  | cons q rest ih =>
    obtain ⟨k, s⟩ := q
    cases hout : (check_session s now (env k)).result with
    | some r =>
      rw [sweep_sessions_cons_some k s rest now env cb r hout]
      dsimp only
      rw [List.cons_append, regCount_cons_completed, regCount_append,
        regCount_notifyEvents, ih]
    | none =>
      rw [sweep_sessions_cons_none k s rest now env cb hout]
      exact ih

theorem shutdown_results_count (l : List (String × MonitoringSession)) (now : Nat)
    (sid : String) (hnd : (l.map Prod.fst).Nodup)
    (hinv : ∀ p ∈ l, p.2.session_id = p.1) :
    resultCount (l.map fun p =>
        EngineEvent.completed (p.2.stop SessionStatus.cancelled "Engine shutdown" now).2) sid
      = keyBit l sid := by
  induction l with
  | nil => rfl
  | cons q rest ih =>
    obtain ⟨k, s⟩ := q
    have hk : k ∉ rest.map Prod.fst := (List.nodup_cons.mp hnd).1
    have hnd' : (rest.map Prod.fst).Nodup := (List.nodup_cons.mp hnd).2
    have hinv' : ∀ p ∈ rest, p.2.session_id = p.1 :=
      fun p hp => hinv p (List.mem_cons_of_mem _ hp)
    have hks : s.session_id = k := hinv (k, s) (List.mem_cons_self _ _)
    rw [List.map_cons, resultCount_cons_completed, ih hnd' hinv', keyBit_cons]
    rw [show (s.stop SessionStatus.cancelled "Engine shutdown" now).2.session_id
        = s.session_id from rfl, hks]
    by_cases hky : k = sid
    · subst hky
      rw [if_pos rfl, if_pos rfl, keyBit_eq_zero_of_not_mem hk]
    · rw [if_neg hky, if_neg hky]
      omega

theorem shutdown_regCount (l : List (String × MonitoringSession)) (now : Nat)
    (sid : String) :
    regCount (l.map fun p =>
        EngineEvent.completed (p.2.stop SessionStatus.cancelled "Engine shutdown" now).2) sid
      = 0 := by
  induction l with
  | nil => rfl
  | cons q rest ih =>
    rw [List.map_cons, regCount_cons_completed]
    exact ih

theorem resultCount_nil (sid : String) : resultCount [] sid = 0 := rfl

theorem regCount_nil (sid : String) : regCount [] sid = 0 := rfl

theorem step_count (settings : Settings) (e : MonitoringEngine) (op : EngineOp)
    (sid : String) (hwf : EngineWF e) :
    EngineWF (e.step settings op).1 ∧
    resultCount (e.step settings op).2 sid
        + keyBit (e.step settings op).1.active_sessions sid
      = regCount (e.step settings op).2 sid + keyBit e.active_sessions sid := by
  obtain ⟨hnd, hinv⟩ := hwf
  cases op with
  | start s =>
    simp only [MonitoringEngine.step]
    unfold MonitoringEngine.start_session
    by_cases h1 : hasKey e.active_sessions s.session_id
    · simp only [h1, if_true]
      exact ⟨⟨hnd, hinv⟩, rfl⟩
    · have hf : hasKey e.active_sessions s.session_id = false := by
        simpa using h1
      by_cases h2 : settings.max_concurrent_sessions ≤ e.active_sessions.length
      · simp only [hf, Bool.false_eq_true, if_false, h2, if_true]
        exact ⟨⟨hnd, hinv⟩, rfl⟩
      · simp only [hf, Bool.false_eq_true, if_false, h2, if_true]
        constructor
        · constructor
          · rw [List.map_append, List.nodup_append]
            refine ⟨hnd, List.nodup_singleton _, ?_⟩
            intro x hx hx2
            simp at hx2
            subst hx2
            exact h1 (hasKey_iff.mpr hx)
          · intro p hp
            rcases List.mem_append.mp hp with hp | hp
            · exact hinv p hp
            · simp at hp
              subst hp
              rfl
        · dsimp only
          rw [resultCount_cons_registered, resultCount_nil,
            regCount_cons_registered, regCount_nil, keyBit_append_single]
          by_cases hks : s.session_id = sid
          · subst hks
            rw [hf]
            simp [keyBit, hf]
          · by_cases hl : hasKey e.active_sessions sid <;>
              simp [keyBit, hks, hl]
  | cancel sid' now =>
    simp only [MonitoringEngine.step]
    unfold MonitoringEngine.stop_session
    cases hl : lookupSid e.active_sessions sid' with
    | none => exact ⟨⟨hnd, hinv⟩, rfl⟩
    | some s =>
      dsimp only
      have hsid : s.session_id = sid' := hinv (sid', s) (lookupSid_mem hl)
      constructor
      · constructor
        · exact List.Nodup.sublist ((List.filter_sublist _).map Prod.fst) hnd
        · exact fun p hp => hinv p (List.mem_of_mem_filter hp)
      · rw [resultCount_cons_completed, resultCount_notifyEvents,
          regCount_cons_completed, regCount_notifyEvents]
        rw [show (s.stop SessionStatus.cancelled "Session cancelled by user" now).2.session_id
            = s.session_id from rfl, hsid]
        by_cases hks : sid' = sid
        · subst hks
          rw [if_pos rfl, keyBit_of_hasKey_false (hasKey_filter_self _ _)]
          have hkb : keyBit e.active_sessions sid' = 1 := by
            simp [keyBit, hasKey, hl]
          rw [hkb]
        · rw [if_neg hks]
          have hkb : keyBit (e.active_sessions.filter fun p => p.1 ≠ sid') sid
              = keyBit e.active_sessions sid := by
            unfold keyBit hasKey
            rw [lookupSid_filter_ne (fun h => hks h.symm)]
          rw [hkb]
  | sweep now env =>
    simp only [MonitoringEngine.step]
    unfold MonitoringEngine.sweep
    by_cases hr : e.running
    · rw [if_pos hr]
      dsimp only
      constructor
      · constructor
        · exact List.Nodup.sublist (sweep_keys_sublist _ _ _ _) hnd
        · exact sweep_session_ids _ _ _ _ hinv
      · rw [sweep_regCount, sweep_count _ _ _ _ _ hnd hinv]
        omega
    · rw [if_neg hr]
      exact ⟨⟨hnd, hinv⟩, rfl⟩
  | shutdown now =>
    simp only [MonitoringEngine.step]
    unfold MonitoringEngine.shutdown
    dsimp only
    constructor
    · exact ⟨List.nodup_nil, by intro p hp; simp at hp⟩
    · rw [shutdown_results_count _ _ _ hnd hinv, shutdown_regCount, keyBit_nil]
      omega

theorem run_count (settings : Settings) (ops : List EngineOp) (e : MonitoringEngine)
    (sid : String) (hwf : EngineWF e) :
    EngineWF (e.run settings ops).1 ∧
    resultCount (e.run settings ops).2 sid
        + keyBit (e.run settings ops).1.active_sessions sid
      = regCount (e.run settings ops).2 sid + keyBit e.active_sessions sid := by
  induction ops generalizing e with
  | nil => exact ⟨hwf, rfl⟩
  | cons op ops ih =>
    have hstep := step_count settings e op sid hwf
    have hrest := ih (e.step settings op).1 hstep.1
    simp only [MonitoringEngine.run]
    refine ⟨hrest.1, ?_⟩
    rw [resultCount_append, regCount_append]
    have h1 := hstep.2
    have h2 := hrest.2
    omega

/-- The default configuration values of `config.py`. -/
def settings0 : Settings where
  api_requests_per_minute := 50
  api_requests_per_day := 1000
  polling_interval_seconds := 300
  default_timeout_minutes := 120
  max_concurrent_sessions := 10

/-- A concrete active session: target 600 s, timeout 5 minutes, poll every
10 s, created at time 0, never yet checked. -/
def sessionA : MonitoringSession where
  session_id := "A"
  origin := (1, 2)
  destination := (3, 4)
  target_duration := 600
  status := SessionStatus.active
  created_at := 0
  timeout_minutes := 5
  polling_interval := 10
  current_travel_time := none
  last_check := none
  error_message := none

/-- `sessionA` after a first poll observed 900 s at time 10. -/
def sessionA900 : MonitoringSession :=
  { sessionA with current_travel_time := some 900, last_check := some 10 }

/-- A second concrete active session with id "C". -/
def sessionC : MonitoringSession :=
  { sessionA with session_id := "C" }

/-- A concrete engine tracking `sessionA`, sweep running, callback set. -/
def engineA : MonitoringEngine where
  active_sessions := [("A", sessionA)]
  running := true
  has_callback := true

/-- `settings0` with capacity for a single concurrent session. -/
def settings1 : Settings :=
  { settings0 with max_concurrent_sessions := 1 }

/-- A pending session with id "B", as freshly constructed. -/
def sessionB : MonitoringSession :=
  { sessionA with session_id := "B", status := SessionStatus.pending }

/-- C10: at session construction, passing `0` for `timeout_minutes` or
`polling_interval_seconds` is silently treated as if the argument were
absent: Python's falsy `or` replaces the zero by the configured default, so
construction with zeros equals construction with `None`, and both fall back
to `default_timeout_minutes` / `polling_interval_seconds`. -/
theorem c10_zero_falls_back_to_default (settings : Settings) (sid : String) (now : Nat)
    (origin destination : Int × Int) (target : Nat) :
    MonitoringSession.init settings sid now origin destination target (some 0) (some 0)
        = MonitoringSession.init settings sid now origin destination target none none ∧
    (MonitoringSession.init settings sid now origin destination target
        (some 0) (some 0)).timeout_minutes = settings.default_timeout_minutes ∧
    (MonitoringSession.init settings sid now origin destination target
        (some 0) (some 0)).polling_interval = settings.polling_interval_seconds :=
  ⟨rfl, rfl, rfl⟩

/-- C6: registering a session whose id is already tracked fails with the
duplicate-session `ValueError` and leaves the engine — in particular its
active set — unchanged; registering any further session when the active set
has reached `max_concurrent_sessions` fails with the capacity `ValueError`,
also leaving the engine unchanged. -/
theorem c6_register_failures (settings : Settings) (e : MonitoringEngine)
    (s : MonitoringSession) :
    (hasKey e.active_sessions s.session_id = true →
      e.start_session settings s
          = Except.error ("Session " ++ s.session_id ++ " already active") ∧
        e.step settings (EngineOp.start s) = (e, [])) ∧
    (hasKey e.active_sessions s.session_id = false →
      settings.max_concurrent_sessions ≤ e.active_sessions.length →
      e.start_session settings s = Except.error "Maximum concurrent sessions reached" ∧
        e.step settings (EngineOp.start s) = (e, [])) := by
  constructor
  · intro h1
    constructor
    · unfold MonitoringEngine.start_session
      rw [if_pos h1]
    · simp only [MonitoringEngine.step]
      unfold MonitoringEngine.start_session
      rw [if_pos h1]
  · intro h1 h2
    constructor
    · unfold MonitoringEngine.start_session
      rw [if_neg (by simp [h1]), if_pos h2]
    · simp only [MonitoringEngine.step]
      unfold MonitoringEngine.start_session
      rw [if_neg (by simp [h1]), if_pos h2]

/-- Witness for C6: a duplicate registration of "A" on `engineA` and a
registration of "B" on `engineA` under capacity 1 both fail and leave the
engine unchanged. -/
theorem c6_register_failures_witness :
    (hasKey engineA.active_sessions sessionA.session_id = true ∧
      engineA.start_session settings0 sessionA
          = Except.error ("Session " ++ sessionA.session_id ++ " already active") ∧
        engineA.step settings0 (EngineOp.start sessionA) = (engineA, [])) ∧
    (hasKey engineA.active_sessions sessionB.session_id = false ∧
      settings1.max_concurrent_sessions ≤ engineA.active_sessions.length ∧
      engineA.start_session settings1 sessionB
          = Except.error "Maximum concurrent sessions reached" ∧
        engineA.step settings1 (EngineOp.start sessionB) = (engineA, [])) :=
  ⟨⟨by decide, (c6_register_failures settings0 engineA sessionA).1 (by decide)⟩,
   ⟨by decide, by decide,
    (c6_register_failures settings1 engineA sessionB).2 (by decide) (by decide)⟩⟩

/-- C9: on a due, unexpired active session, a "no route" / missing-data
response leaves the session exactly as it was — status, last observed travel
time, `last_check` and error detail all unchanged — and produces no Result
(the external call was made, but nothing is recorded). -/
theorem c9_no_route_is_frame_neutral (s : MonitoringSession) (now : Nat)
    (hact : s.status = SessionStatus.active)
    (hdue : due_skip s now = false)
    (hexp : now - s.created_at ≤ s.timeout_minutes * 60) :
    check_session s now ApiResponse.noRoute
      = { session := s, result := none, polled := true } := by
  have hexpf : s.is_expired now = false := by
    unfold MonitoringSession.is_expired
    rw [if_pos hact]
    simp only [decide_eq_false_iff_not]
    exact Nat.not_lt.mpr hexp
  unfold check_session
  rw [hdue, hexpf]
  simp [get_current_travel_time]

/-- Witness for C9: `sessionA` polled at time 100 with a "no route" answer
stays exactly `sessionA`, with no Result. -/
theorem c9_no_route_is_frame_neutral_witness :
    sessionA.status = SessionStatus.active ∧
    due_skip sessionA 100 = false ∧
    100 - sessionA.created_at ≤ sessionA.timeout_minutes * 60 ∧
    check_session sessionA 100 ApiResponse.noRoute
      = { session := sessionA, result := none, polled := true } :=
  ⟨rfl, rfl, by decide,
   c9_no_route_is_frame_neutral sessionA 100 rfl rfl (by decide)⟩

/-- C4: on a due, unexpired active session, an observation at or below the
target terminates the session as TARGET_REACHED on that same poll, with the
Result carrying the observed travel time as its final travel time; an
observation above the target only records the observation and produces no
Result — so in the 900-then-550 scenario with target 600 exactly the second
poll yields the one TargetReached Result, carrying 550. -/
theorem c4_target_reached_on_same_poll (s : MonitoringSession) (now v : Nat)
    (hact : s.status = SessionStatus.active)
    (hdue : due_skip s now = false)
    (hexp : now - s.created_at ≤ s.timeout_minutes * 60) :
    (v ≤ s.target_duration →
      check_session s now (ApiResponse.value v)
        = { session :=
              { s with
                current_travel_time := some v
                last_check := some now
                status := SessionStatus.target_reached }
            result := some
              { session_id := s.session_id
                status := SessionStatus.target_reached
                final_travel_time := some v
                target_duration := s.target_duration
                message := "Target reached! Current travel time: " ++ format_duration v ++
                  " (target: " ++ format_duration s.target_duration ++ ")"
                timestamp := now }
            polled := true }) ∧
    (s.target_duration < v →
      check_session s now (ApiResponse.value v)
        = { session := { s with current_travel_time := some v, last_check := some now }
            result := none
            polled := true }) := by
  have hexpf : s.is_expired now = false := by
    unfold MonitoringSession.is_expired
    rw [if_pos hact]
    simp only [decide_eq_false_iff_not]
    exact Nat.not_lt.mpr hexp
  constructor
  · intro hle
    unfold check_session
    rw [hdue, hexpf]
    simp only [Bool.false_eq_true, if_false, get_current_travel_time]
    rw [if_pos hle]
    rfl
  · intro hgt
    unfold check_session
    rw [hdue, hexpf]
    simp only [Bool.false_eq_true, if_false, get_current_travel_time]
    rw [if_neg (Nat.not_le.mpr hgt)]

/-- Witness for C4: the spec scenario, second poll. After observing 900 at
time 10 (`sessionA900`), the poll at time 250 observes 550 ≤ 600 and
produces the single TargetReached Result carrying 550; the first poll's 900
produced none. -/
theorem c4_target_reached_on_same_poll_witness :
    sessionA900.status = SessionStatus.active ∧
    due_skip sessionA900 250 = false ∧
    250 - sessionA900.created_at ≤ sessionA900.timeout_minutes * 60 ∧
    (550 ≤ sessionA900.target_duration ∧
      check_session sessionA900 250 (ApiResponse.value 550)
        = { session :=
              { sessionA900 with
                current_travel_time := some 550
                last_check := some 250
                status := SessionStatus.target_reached }
            result := some
              { session_id := sessionA900.session_id
                status := SessionStatus.target_reached
                final_travel_time := some 550
                target_duration := sessionA900.target_duration
                message := "Target reached! Current travel time: " ++ format_duration 550 ++
                  " (target: " ++ format_duration sessionA900.target_duration ++ ")"
                timestamp := 250 }
            polled := true }) ∧
    (sessionA.target_duration < 900 ∧
      check_session sessionA 10 (ApiResponse.value 900)
        = { session := sessionA900, result := none, polled := true }) :=
  ⟨rfl, by decide, by decide,
   ⟨by decide,
    (c4_target_reached_on_same_poll sessionA900 250 550 rfl (by decide) (by decide)).1
      (by decide)⟩,
   ⟨by decide,
    (c4_target_reached_on_same_poll sessionA 10 900 rfl rfl (by decide)).2 (by decide)⟩⟩

/-- C3 counterexample: the claim says an unrecoverable error raised by a
poll attempt moves the session to the Error terminal state with an Error
Result. In the code, `DirectionsService.get_current_travel_time` catches
every exception and returns `None`, so on the due, unexpired, active
`sessionA` a failing poll at time 100 leaves the session exactly unchanged —
still ACTIVE, no error detail, no Result — refuting the claim. -/
theorem c3_counterexample :
    get_current_travel_time (ApiResponse.failure "API exploded") = none ∧
    check_session sessionA 100 (ApiResponse.failure "API exploded")
      = { session := sessionA, result := none, polled := true } ∧
    (check_session sessionA 100 (ApiResponse.failure "API exploded")).session.status
        = SessionStatus.active ∧
    ¬ ((check_session sessionA 100 (ApiResponse.failure "API exploded")).session.status
        = SessionStatus.error ∧
       (check_session sessionA 100 (ApiResponse.failure "API exploded")).result ≠ none) := by
  refine ⟨rfl, by decide, by decide, ?_⟩
  intro h
  have := h.1
  revert this
  decide

/-- C3 amended: an unrecoverable error raised inside the travel-time call is
caught by `DirectionsService.get_current_travel_time` and converted to
`None`, so the sweep treats it exactly like a "no route" non-result: the
session stays ACTIVE and completely unchanged (no error detail captured) and
no Result is produced; the Error termination path of the sweep is not
reached by poll failures. -/
theorem c3_amended_poll_error_swallowed (s : MonitoringSession) (now : Nat) (msg : String)
    (hact : s.status = SessionStatus.active)
    (hdue : due_skip s now = false)
    (hexp : now - s.created_at ≤ s.timeout_minutes * 60) :
    check_session s now (ApiResponse.failure msg)
      = { session := s, result := none, polled := true } := by
  have hexpf : s.is_expired now = false := by
    unfold MonitoringSession.is_expired
    rw [if_pos hact]
    simp only [decide_eq_false_iff_not]
    exact Nat.not_lt.mpr hexp
  unfold check_session
  rw [hdue, hexpf]
  simp [get_current_travel_time]

/-- Witness for the amended C3: a failing poll on `sessionA` at time 100. -/
theorem c3_amended_poll_error_swallowed_witness :
    sessionA.status = SessionStatus.active ∧
    due_skip sessionA 100 = false ∧
    100 - sessionA.created_at ≤ sessionA.timeout_minutes * 60 ∧
    check_session sessionA 100 (ApiResponse.failure "boom")
      = { session := sessionA, result := none, polled := true } :=
  ⟨rfl, rfl, by decide,
   c3_amended_poll_error_swallowed sessionA 100 "boom" rfl rfl (by decide)⟩

/-- C5 counterexample: with timeout T = 5 minutes, (a) at the sweep tick
exactly T minutes after creation (time 300, elapsed = T·60) the code does
not time the session out — `is_expired` uses a strict comparison — and it
does issue the external call, observing 900 and staying ACTIVE; (b) at a
tick strictly after T minutes (time 301) a session whose `last_check` is
295 is skipped by the due test, so it is not timed out at the first tick at
or after T minutes either. Both contradict the claim. -/
theorem c5_counterexample :
    (300 - sessionA.created_at = sessionA.timeout_minutes * 60 ∧
      sessionA.is_expired 300 = false ∧
      check_session sessionA 300 (ApiResponse.value 900)
        = { session :=
              { sessionA with
                current_travel_time := some 900
                last_check := some 300 }
            result := none
            polled := true }) ∧
    (sessionA.timeout_minutes * 60 < 301 - sessionA.created_at ∧
      due_skip { sessionA with last_check := some 295 } 301 = true ∧
      check_session { sessionA with last_check := some 295 } 301 (ApiResponse.value 900)
        = { session := { sessionA with last_check := some 295 }
            result := none
            polled := false }) := by
  decide

/-- C5 amended: on a sweep tick where the active session is due for polling
and strictly more than `timeout_minutes` minutes have elapsed since
creation, the session terminates as TIMED_OUT with no external call issued;
and while the elapsed time is at most `timeout_minutes` minutes, no tick
ever produces a TIMED_OUT result. The timeout check still precedes the
poll, but it is only reached on due ticks and fires strictly after T. -/
theorem c5_amended_timeout_boundary (s : MonitoringSession) (now : Nat)
    (resp : ApiResponse) (hact : s.status = SessionStatus.active) :
    (due_skip s now = false → s.timeout_minutes * 60 < now - s.created_at →
      check_session s now resp
        = { session := { s with status := SessionStatus.timed_out }
            result := some
              { session_id := s.session_id
                status := SessionStatus.timed_out
                final_travel_time := s.current_travel_time
                target_duration := s.target_duration
                message := "Session timed out after " ++ toString s.timeout_minutes ++
                  " minutes"
                timestamp := now }
            polled := false }) ∧
    (now - s.created_at ≤ s.timeout_minutes * 60 →
      ∀ r, (check_session s now resp).result = some r →
        ¬ r.status = SessionStatus.timed_out) := by
  constructor
  · intro hdue hgt
    have hexp : s.is_expired now = true := by
      unfold MonitoringSession.is_expired
      rw [if_pos hact]
      simpa using hgt
    unfold check_session
    rw [hdue, hexp]
    simp [MonitoringSession.stop]
  · intro hle r hr
    have hexpf : s.is_expired now = false := by
      unfold MonitoringSession.is_expired
      rw [if_pos hact]
      simp only [decide_eq_false_iff_not]
      exact Nat.not_lt.mpr hle
    unfold check_session at hr
    cases h1 : due_skip s now <;> rw [h1] at hr
    · rw [hexpf] at hr
      simp only [Bool.false_eq_true, if_false] at hr
      cases hv : get_current_travel_time resp <;> rw [hv] at hr
      · simp at hr
      · rename_i v
        by_cases h3 : v ≤ s.target_duration
        · simp [h3, MonitoringSession.stop] at hr
          subst hr
          simp
        · simp [h3] at hr
    · simp at hr

/-- Witness for the amended C5: (a) `sessionA` at tick 301 (elapsed 301 >
300) is due and times out without polling; (b) at tick 250 (elapsed ≤ 300)
the poll observing 550 produces a TargetReached — not TimedOut — result. -/
theorem c5_amended_timeout_boundary_witness :
    (sessionA.status = SessionStatus.active ∧
      due_skip sessionA 301 = false ∧
      sessionA.timeout_minutes * 60 < 301 - sessionA.created_at ∧
      check_session sessionA 301 (ApiResponse.value 900)
        = { session := { sessionA with status := SessionStatus.timed_out }
            result := some
              { session_id := sessionA.session_id
                status := SessionStatus.timed_out
                final_travel_time := sessionA.current_travel_time
                target_duration := sessionA.target_duration
                message := "Session timed out after " ++ toString sessionA.timeout_minutes ++
                  " minutes"
                timestamp := 301 }
            polled := false }) ∧
    (250 - sessionA900.created_at ≤ sessionA900.timeout_minutes * 60 ∧
      (check_session sessionA900 250 (ApiResponse.value 550)).result
          = some
            { session_id := sessionA900.session_id
              status := SessionStatus.target_reached
              final_travel_time := some 550
              target_duration := sessionA900.target_duration
              message := "Target reached! Current travel time: " ++ format_duration 550 ++
                " (target: " ++ format_duration sessionA900.target_duration ++ ")"
              timestamp := 250 } ∧
      ¬ ({ session_id := sessionA900.session_id
           status := SessionStatus.target_reached
           final_travel_time := some 550
           target_duration := sessionA900.target_duration
           message := "Target reached! Current travel time: " ++ format_duration 550 ++
             " (target: " ++ format_duration sessionA900.target_duration ++ ")"
           timestamp := 250 : MonitoringResult }).status = SessionStatus.timed_out) :=
  ⟨⟨rfl, rfl, by decide,
    (c5_amended_timeout_boundary sessionA 301 (ApiResponse.value 900) rfl).1 rfl
      (by decide)⟩,
   ⟨by decide, by decide,
    (c5_amended_timeout_boundary sessionA900 250 (ApiResponse.value 550) rfl).2
      (by decide) _ (by decide)⟩⟩

theorem check_rate_limits_true_daily {c : ClientState} {now : Nat}
    {c' : ClientState} (h : check_rate_limits c now = (true, c')) :
    c'.daily_requests < c'.requests_per_day := by
  unfold check_rate_limits at h
  dsimp only at h
  split at h
  · split at h
    · simp at h
    · split at h
      · simp at h
      · rename_i hz hm
        injection h with h1 h2
        subst h2
        exact Nat.not_le.mp hz
  · split at h
    · simp at h
    · split at h
      · simp at h
      · rename_i hB hm
        injection h with h1 h2
        subst h2
        exact Nat.not_le.mp hB

/-- A rate-limiter state at its daily limit (1 of 1 used) with one fresh
minute-window entry at time 100. -/
def clientA : ClientState where
  requests_per_minute := 50
  requests_per_day := 1
  minute_requests := [100]
  daily_requests := 1
  daily_reset_time := 1000

/-- A rate-limiter state with budget left in both windows. -/
def clientB : ClientState where
  requests_per_minute := 50
  requests_per_day := 1000
  minute_requests := [100]
  daily_requests := 5
  daily_reset_time := 1000

/-- C7 counterexample: at time 100 `clientA` is denied because the daily
limit is reached (1 ≥ 1), yet the wait iteration branches on the minute
deque being non-empty and sleeps min(61, 10) = 10 seconds — not the claimed
fixed 60-second backoff. -/
theorem c7_counterexample :
    clientA.requests_per_day ≤ clientA.daily_requests ∧
    (check_rate_limits clientA 100).1 = false ∧
    (wait_sleep clientA 100).1 = some 10 ∧
    ¬ (wait_sleep clientA 100).1 = some 60 := by
  decide

/-- C7 amended: a denied acquire attempt sleeps the fixed 60-second backoff
only when the (post-check) minute deque is empty; with a non-empty deque —
even when the denial was due to the daily limit — the sleep follows the
minute-window schedule in slices of at most 10 seconds. A request is
recorded only after a permitting check, so after any successful acquire
step `daily_requests` never exceeds `requests_per_day`. -/
theorem c7_amended_backoff_and_daily_bound (c : ClientState) (now : Nat) :
    (∀ d, (wait_sleep c now).1 = some d →
      ((check_rate_limits c now).2.minute_requests = [] ∧ d = 60) ∨ d ≤ 10) ∧
    (∀ c'', acquire_step c now = some c'' →
      c''.daily_requests ≤ c''.requests_per_day) := by
  constructor
  · intro d hd
    unfold wait_sleep at hd
    rcases hc : check_rate_limits c now with ⟨ok, c₀⟩
    rw [hc] at hd
    cases ok
    · dsimp only at hd
      cases hm : c₀.minute_requests with
      | nil =>
        rw [hm] at hd
        dsimp only at hd
        injection hd with hd'
        exact Or.inl ⟨rfl, hd'.symm⟩
      | cons oldest t =>
        rw [hm] at hd
        dsimp only at hd
        by_cases hw : now < oldest + 61
        · rw [if_pos hw] at hd
          dsimp only at hd
          injection hd with hd'
          exact Or.inr (hd' ▸ Nat.min_le_right _ _)
        · rw [if_neg hw] at hd
          dsimp only at hd
          injection hd with hd'
          omega
    · dsimp only at hd
      simp at hd
  · intro c'' hacq
    unfold acquire_step at hacq
    rcases hc : check_rate_limits c now with ⟨ok, c₀⟩
    rw [hc] at hacq
    cases ok
    · dsimp only at hacq
      simp at hacq
    · dsimp only at hacq
      injection hacq with h2
      subst h2
      have hlt := check_rate_limits_true_daily hc
      show c₀.daily_requests + 1 ≤ c₀.requests_per_day
      omega

/-- Witness for the amended C7: at `clientA`/time 100 the denied attempt's
sleep is 10 ≤ 10 (non-empty deque); at `clientB`/time 100 the acquire step
succeeds and the recorded state's daily count 6 stays within the limit. -/
theorem c7_amended_backoff_and_daily_bound_witness :
    (wait_sleep clientA 100).1 = some 10 ∧
    (((check_rate_limits clientA 100).2.minute_requests = [] ∧ (10:Nat) = 60) ∨
      (10:Nat) ≤ 10) ∧
    acquire_step clientB 100
        = some { requests_per_minute := 50, requests_per_day := 1000,
                 minute_requests := [100, 100], daily_requests := 6,
                 daily_reset_time := 1000 } ∧
    ({ requests_per_minute := 50, requests_per_day := 1000,
       minute_requests := [100, 100], daily_requests := 6,
       daily_reset_time := 1000 : ClientState }).daily_requests
      ≤ ({ requests_per_minute := 50, requests_per_day := 1000,
           minute_requests := [100, 100], daily_requests := 6,
           daily_reset_time := 1000 : ClientState }).requests_per_day :=
  ⟨by decide,
   (c7_amended_backoff_and_daily_bound clientA 100).1 10 (by decide),
   by decide,
   (c7_amended_backoff_and_daily_bound clientB 100).2 _ (by decide)⟩

theorem trimMinute_eq_self {l : List Nat} {m : Nat}
    (h : ∀ t ∈ l, ¬ t < m) : trimMinute l m = l := by
  cases l with
  | nil => rfl
  | cons t rest =>
    unfold trimMinute
    rw [if_neg (h t (List.mem_cons_self _ _))]

/-- A rate-limiter state whose single minute-window entry (time 0) is stale
at time 100. -/
def clientC : ClientState where
  requests_per_minute := 50
  requests_per_day := 1000
  minute_requests := [0]
  daily_requests := 0
  daily_reset_time := 500

/-- A rate-limiter state whose single minute-window entry (time 90) is
still fresh at time 100. -/
def clientD : ClientState where
  requests_per_minute := 50
  requests_per_day := 1000
  minute_requests := [90]
  daily_requests := 3
  daily_reset_time := 1000

/-- C8 counterexample: `get_usage_stats` is not state-neutral — on `clientC`
at time 100 it pops the stale entry 0 from the minute deque, so the limiter
state after the call differs from the state before it. -/
theorem c8_counterexample :
    ¬ (get_usage_stats clientC 100).2 = clientC := by
  decide

/-- C8 amended: `get_usage_stats` reports the current counts and remaining
budgets of both the minute window and the daily quota, but first trims
minute-window entries older than 60 seconds in place; that trim is its only
mutation — the daily counter, both limits and the reset instant are
untouched — and whenever no entry is stale the limiter state is completely
unchanged. -/
theorem c8_amended_usage_stats (c : ClientState) (now : Nat) :
    ((get_usage_stats c now).1
        = { daily_requests := c.daily_requests
            daily_limit := c.requests_per_day
            daily_remaining := (c.requests_per_day : Int) - (c.daily_requests : Int)
            minute_requests := (trimMinute c.minute_requests (now - 60)).length
            minute_limit := c.requests_per_minute
            minute_remaining := (c.requests_per_minute : Int)
              - ((trimMinute c.minute_requests (now - 60)).length : Int)
            daily_reset_time := c.daily_reset_time }) ∧
    ((get_usage_stats c now).2
        = { c with minute_requests := trimMinute c.minute_requests (now - 60) }) ∧
    ((∀ t ∈ c.minute_requests, ¬ t < now - 60) → (get_usage_stats c now).2 = c) := by
  refine ⟨rfl, rfl, ?_⟩
  intro h
  show ({ c with minute_requests := trimMinute c.minute_requests (now - 60) }
      : ClientState) = c
  rw [trimMinute_eq_self h]

/-- Witness for the amended C8: on `clientD` at time 100 nothing is stale,
and the state after `get_usage_stats` equals the state before. -/
theorem c8_amended_usage_stats_witness :
    (∀ t ∈ clientD.minute_requests, ¬ t < 100 - 60) ∧
    (get_usage_stats clientD 100).2 = clientD :=
  ⟨by decide, (c8_amended_usage_stats clientD 100).2.2 (by decide)⟩

/-- A concrete engine with two active sessions ("A" and "C"), sweep
running, notification callback registered. -/
def engine2 : MonitoringEngine where
  active_sessions := [("A", sessionA), ("C", sessionC)]
  running := true
  has_callback := true

/-- C2 (code bug): calling `shutdown()` on `engine2` — two active sessions,
callback registered — produces a Cancelled Result tagged "Engine shutdown"
for each session, clears the active set and stops the sweep, but the
registered notification callback is never invoked: the results returned by
`session.stop` are discarded and zero `notified` events occur, although the
spec (and every other terminal path in the engine) delivers each terminal
Result through the callback. -/
theorem c2_shutdown_never_notifies :
    engine2.has_callback = true ∧
    engine2.step settings0 (EngineOp.shutdown 500)
      = ({ active_sessions := [], running := false, has_callback := true },
         [EngineEvent.completed
            { session_id := "A"
              status := SessionStatus.cancelled
              final_travel_time := none
              target_duration := 600
              message := "Engine shutdown"
              timestamp := 500 },
          EngineEvent.completed
            { session_id := "C"
              status := SessionStatus.cancelled
              final_travel_time := none
              target_duration := 600
              message := "Engine shutdown"
              timestamp := 500 }]) ∧
    notifyCount (engine2.step settings0 (EngineOp.shutdown 500)).2 = 0 ∧
    (engine2.step settings0 (EngineOp.shutdown 500)).1.active_sessions = [] ∧
    (engine2.step settings0 (EngineOp.shutdown 500)).1.running = false := by
  decide

/-- C1: over any trace of atomic engine operations (registrations, user
cancellations, sweep iterations with arbitrary external responses, and
shutdowns) starting from a fresh engine, every session id that is
registered at most once — as uuid-identified sessions are — receives at
most one terminal Result ever, and once the session is no longer in the
active set the number of Results produced for it equals the number of times
it was registered: exactly one for a registered-then-terminated session, so
no duplicate Results and no lost Results on any termination path. -/
theorem c1_exactly_one_terminal_result (settings : Settings) (cb : Bool)
    (ops : List EngineOp) (sid : String)
    (huniq : regCount ((MonitoringEngine.mk0 cb).run settings ops).2 sid ≤ 1) :
    resultCount ((MonitoringEngine.mk0 cb).run settings ops).2 sid ≤ 1 ∧
    (hasKey ((MonitoringEngine.mk0 cb).run settings ops).1.active_sessions sid = false →
      resultCount ((MonitoringEngine.mk0 cb).run settings ops).2 sid
        = regCount ((MonitoringEngine.mk0 cb).run settings ops).2 sid) := by
  have hwf : EngineWF (MonitoringEngine.mk0 cb) := by
    constructor
    · exact List.nodup_nil
    · intro p hp
      simp [MonitoringEngine.mk0] at hp
  have h := (run_count settings ops (MonitoringEngine.mk0 cb) sid hwf).2
  rw [show keyBit (MonitoringEngine.mk0 cb).active_sessions sid = 0 from rfl] at h
  have hb := keyBit_le_one
    ((MonitoringEngine.mk0 cb).run settings ops).1.active_sessions sid
  constructor
  · omega
  · intro hgone
    have hz := keyBit_of_hasKey_false hgone
    omega

/-- A pending session with id "P". -/
def sessionP : MonitoringSession :=
  { sessionA with session_id := "P", status := SessionStatus.pending }

/-- A pending session with id "Q". -/
def sessionQ : MonitoringSession :=
  { sessionA with session_id := "Q", status := SessionStatus.pending }

/-- An external source that always answers 550 seconds. -/
def env0 : String → ApiResponse := fun _ => ApiResponse.value 550

/-- A concrete trace: register "P" and "Q", cancel "P" at time 50, sweep at
time 60 (where "Q" reaches its target and is evicted). -/
def ops0 : List EngineOp :=
  [EngineOp.start sessionP, EngineOp.start sessionQ,
   EngineOp.cancel "P" 50, EngineOp.sweep 60 env0]

/-- Witness for C1: on the trace `ops0`, session "P" is registered once,
produces exactly one terminal Result, and is absent from the final active
set. -/
theorem c1_exactly_one_terminal_result_witness :
    regCount ((MonitoringEngine.mk0 true).run settings0 ops0).2 "P" ≤ 1 ∧
    (resultCount ((MonitoringEngine.mk0 true).run settings0 ops0).2 "P" ≤ 1 ∧
      (hasKey ((MonitoringEngine.mk0 true).run settings0 ops0).1.active_sessions "P"
          = false →
        resultCount ((MonitoringEngine.mk0 true).run settings0 ops0).2 "P"
          = regCount ((MonitoringEngine.mk0 true).run settings0 ops0).2 "P")) :=
  ⟨by decide, c1_exactly_one_terminal_result settings0 true ops0 "P" (by decide)⟩

end GoTime
